import Mathlib

/-!
Verification of the meal-logging web application:
an Express + SQLite backend with four JSON endpoints (`src/unnamed/part_000`),
a provider client (`src/src/services/geminiService.ts`) and the React
interaction layer (`src/src/App.tsx`).  JavaScript runtime values are embedded
as `JsValue`; the provider's `JSON.parse` is kept abstract as a parameter
`parse : String → Except Unit JsValue` (an `.error` models a thrown
`SyntaxError`), since `JSON.parse` is platform code, not repository code.
-/

namespace MealApp

/-- JavaScript runtime values as far as the application manipulates them:
JSON values plus `undefined`.  Numbers are modelled as integers (every number
the application stores or compares is integral). -/
inductive JsValue where
  | undefined
  | null
  | bool (b : Bool)
  | num (n : Int)
  | str (s : String)
  | arr (elems : List JsValue)
  | obj (fields : List (String × JsValue))

/-- JavaScript truthiness: `undefined`, `null`, `false`, `0` and `""` are
falsy; every other value (including any object or array) is truthy. -/
def truthy : JsValue → Bool
  | .undefined => false
  | .null => false
  | .bool b => b
  | .num n => n != 0
  | .str s => s != ""
  | .arr _ => true
  | .obj _ => true

/-- JavaScript property access `v.k`: a `TypeError` (modelled as `.error`) on
`null`/`undefined`, the first binding of `k` on an object (`undefined` when
absent), and `undefined` on every other primitive or array. -/
def getField : JsValue → String → Except Unit JsValue
  | .undefined, _ => .error ()
  | .null, _ => .error ()
  | .obj fields, k => .ok ((fields.lookup k).getD .undefined)
  | _, _ => .ok .undefined

/-- Property access on a value known to be an object (or at least not
`null`/`undefined`), as used on the React `profile` state object. -/
def jsGetD : JsValue → String → JsValue
  | .obj fields, k => (fields.lookup k).getD .undefined
  | _, _ => .undefined

mutual
/-- JavaScript abstract `ToString`, as invoked by string concatenation with
`+`: `undefined` prints as "undefined", objects as "[object Object]", arrays
join their elements with commas. -/
def jsToString : JsValue → String
  | .undefined => "undefined"
  | .null => "null"
  | .bool b => if b then "true" else "false"
  | .num n => toString n
  | .str s => s
  | .arr elems => String.intercalate "," (jsToStringList elems)
  | .obj _ => "[object Object]"

/-- Element strings for `Array.prototype.join`: `null` and `undefined`
elements become empty strings. -/
def jsToStringList : List JsValue → List String
  | [] => []
  | .undefined :: vs => "" :: jsToStringList vs
  | .null :: vs => "" :: jsToStringList vs
  | v :: vs => jsToString v :: jsToStringList vs
end

/-- The literal fallback text `"{}"` from `JSON.parse(response.text || "{}")`
(written with hexadecimal escapes for the two brace characters). -/
def jsonEmptyText : String := "\x7b\x7d"

/-- Whether a value is the JavaScript `undefined`. -/
def isUndefined : JsValue → Bool
  | .undefined => true
  | _ => false

/-- A `JSON.stringify` call on an object literal, as performed by the two
`fetch` POST bodies in App.tsx: properties whose value is `undefined` are
dropped from the serialized object.  (The values that reach these calls are
parse results or string literals, so no nested `undefined` can occur.) -/
def stringifyBody (fields : List (String × JsValue)) : JsValue :=
  .obj (fields.filter fun kv => !isUndefined kv.2)

/-- SQLite storage values the application can hold in a column. -/
inductive SqlValue where
  | int (n : Int)
  | text (s : String)
  | null
  deriving Repr, DecidableEq

/-- Parameter binding of the better-sqlite3 driver used by the server:
numbers, strings and `null` bind; booleans, `undefined`, objects and arrays
are rejected with a thrown `TypeError` (which is why the server coerces
`is_safe` with `? 1 : 0` before binding). -/
def bindValue : JsValue → Except Unit SqlValue
  | .num n => .ok (.int n)
  | .str s => .ok (.text s)
  | .null => .ok SqlValue.null
  | _ => .error ()

/-- Reading a stored column back out as a JSON value (better-sqlite3 row
objects). -/
def sqlToJs : SqlValue → JsValue
  | .int n => .num n
  | .text s => .str s
  | .null => .null

/-- A row of the `food_logs` table: auto-incremented `id`, the four bound
columns, and `created_at` set from `CURRENT_TIMESTAMP` at insertion. -/
structure FoodLogRow where
  id : Nat
  image_url : SqlValue
  food_name : SqlValue
  analysis : SqlValue
  is_safe : SqlValue
  created_at : Nat
  deriving Repr, DecidableEq

/-- The singleton `user_profile` row (its `id` column is pinned to 1 by the
`CHECK (id = 1)` constraint, so only `age` and `condition` vary). -/
structure ProfileRow where
  age : SqlValue
  condition : SqlValue
  deriving Repr, DecidableEq

/-- The persistent store: the `user_profile` table (at most one row, by the
`CHECK (id = 1)` primary-key constraint, hence an `Option`), the `food_logs`
table in insertion order, the next `AUTOINCREMENT` id, and the current clock
used for `CURRENT_TIMESTAMP`. -/
structure Store where
  user_profile : Option ProfileRow
  food_logs : List FoodLogRow
  nextId : Nat
  now : Nat
  deriving Repr, DecidableEq

/-- The JSON object better-sqlite3 returns for `SELECT * FROM user_profile
WHERE id = 1`. -/
def profileJson (p : ProfileRow) : JsValue :=
  .obj [("id", .num 1), ("age", sqlToJs p.age), ("condition", sqlToJs p.condition)]

/-- GET `/api/profile`: responds with the singleton row, or with the empty
object when the `SELECT` produced no row (`res.json(profile || {})`).  The
handler is a pure read: the returned store is the input store. -/
def getProfile (db : Store) : JsValue × Store :=
  (match db.user_profile with
   | some p => profileJson p
   | none => .obj [], db)

/-- POST `/api/profile`: destructures `age` and `condition` from the request
body and runs the `INSERT ... ON CONFLICT(id) DO UPDATE` upsert.  A value the
driver cannot bind makes the handler throw (an HTTP 500, no write). -/
def saveProfile (body : JsValue) (db : Store) : Except Unit (JsValue × Store) :=
  match getField body "age", getField body "condition" with
  | .ok age, .ok condition =>
    match bindValue age, bindValue condition with
    | .ok ageV, .ok condV =>
      .ok (.obj [("success", .bool true)],
        { db with user_profile := some ⟨ageV, condV⟩ })
    | _, _ => .error ()
  | _, _ => .error ()

/-- The `ORDER BY created_at DESC` comparison: newer (or equal) timestamps
come first. -/
def newestFirst (a b : FoodLogRow) : Prop := b.created_at ≤ a.created_at

instance : DecidableRel newestFirst := fun a b => Nat.decLe b.created_at a.created_at

instance : IsTotal FoodLogRow newestFirst :=
  ⟨fun a b => Nat.le_total b.created_at a.created_at⟩

instance : IsTrans FoodLogRow newestFirst :=
  ⟨fun _ _ _ hab hbc => Nat.le_trans hbc hab⟩

/-- GET `/api/logs`: `SELECT * FROM food_logs ORDER BY created_at DESC LIMIT
50`.  A pure read returning the rows sorted newest-first, truncated to 50. -/
def listRecentLogs (db : Store) : List FoodLogRow × Store :=
  ((List.insertionSort newestFirst db.food_logs).take 50, db)

/-- POST `/api/logs`: destructures the four columns from the request body,
coerces `is_safe` with `is_safe ? 1 : 0`, and inserts one row with a fresh id
and the current timestamp.  A value the driver cannot bind makes the handler
throw (an HTTP 500, no write). -/
def appendLog (body : JsValue) (db : Store) : Except Unit (JsValue × Store) :=
  match getField body "image_url", getField body "food_name",
        getField body "analysis", getField body "is_safe" with
  | .ok image_url, .ok food_name, .ok analysis, .ok is_safe =>
    match bindValue image_url, bindValue food_name, bindValue analysis with
    | .ok imgV, .ok nameV, .ok analysisV =>
      .ok (.obj [("success", .bool true)],
        { db with
            food_logs := db.food_logs ++
              [⟨db.nextId, imgV, nameV, analysisV,
                SqlValue.int (if truthy is_safe then 1 else 0), db.now⟩],
            nextId := db.nextId + 1 })
    | _, _, _ => .error ()
  | _, _, _, _ => .error ()

/-- Outcome of an `ai.models.generateContent` call: either the returned
promise rejects (network or provider error), or it resolves with a response
whose `text` field is possibly absent. -/
inductive ProviderOutcome where
  | failure
  | success (text : Option String)

/-- The text actually handed to `JSON.parse` by `response.text || "{}"`:
an absent or empty `text` falls back to the literal `"{}"`. -/
def responseTextOrEmpty : Option String → String
  | none => jsonEmptyText
  | some s => if s = "" then jsonEmptyText else s

/-- geminiService.ts `analyzeFoodImage`: sends the prompt built from the age,
condition and image to the provider and returns `JSON.parse(response.text ||
"{}")`.  No field of the parsed value is inspected before returning.  The
`base64Image`, `age` and `condition` arguments only shape the request, not
the handling of the response. -/
def analyzeFoodImage (parse : String → Except Unit JsValue)
    (base64Image : String) (age : JsValue) (condition : JsValue)
    (outcome : ProviderOutcome) : Except Unit JsValue :=
  match base64Image, age, condition, outcome with
  | _, _, _, .failure => .error ()
  | _, _, _, .success text => parse (responseTextOrEmpty text)

/-- geminiService.ts `getDailyRecommendation`: sends the prompt built from
the recent logs, age and condition to the provider and returns
`JSON.parse(response.text || "{}")`.  No field of the parsed value is
inspected before returning. -/
def getDailyRecommendation (parse : String → Except Unit JsValue)
    (logs : List FoodLogRow) (age : JsValue) (condition : JsValue)
    (outcome : ProviderOutcome) : Except Unit JsValue :=
  match logs, age, condition, outcome with
  | _, _, _, .failure => .error ()
  | _, _, _, .success text => parse (responseTextOrEmpty text)

/-- Field types of the structured-output `responseSchema` the requests
attach. -/
inductive SchemaType where
  | object
  | string
  | boolean
  deriving Repr, DecidableEq

/-- A structured-output response schema: a top-level type, named properties
with their types, and the list of required property names. -/
structure ResponseSchema where
  type : SchemaType
  properties : List (String × SchemaType)
  required : List String
  deriving Repr, DecidableEq

/-- The `responseSchema` attached by `analyzeFoodImage` (geminiService.ts
lines 34-43). -/
def analyzeFoodImageSchema : ResponseSchema :=
  { type := .object
    properties := [("foodName", .string), ("isSafe", .boolean),
                   ("analysis", .string), ("tips", .string)]
    required := ["foodName", "isSafe", "analysis", "tips"] }

/-- The `responseSchema` attached by `getDailyRecommendation`
(geminiService.ts lines 67-73). -/
def dailyRecommendationSchema : ResponseSchema :=
  { type := .object
    properties := [("recommendation", .string)]
    required := ["recommendation"] }

/-- Modelled from the spec: the meal-analysis contract requires "a JSON
object with exactly four fields: `foodName` (string), `isSafe` (boolean),
`analysis` (string), `tips` (string)", all required. -/
def specMealAnalysisSchema : ResponseSchema :=
  { type := .object
    properties := [("foodName", .string), ("isSafe", .boolean),
                   ("analysis", .string), ("tips", .string)]
    required := ["foodName", "isSafe", "analysis", "tips"] }

/-- Modelled from the spec: the daily-recommendation contract requires "a
single-field JSON object with `recommendation` (string)". -/
def specDailyRecommendationSchema : ResponseSchema :=
  { type := .object
    properties := [("recommendation", .string)]
    required := ["recommendation"] }

/-- The four navigation tabs of the App component. -/
inductive Tab where
  | home
  | analyze
  | history
  | profile
  deriving Repr, DecidableEq

/-- The React state of the App component that the claims depend on: the
active tab, the fetched profile object, the fetched logs, the loading flag
and the last analysis result. -/
structure AppState where
  activeTab : Tab
  profile : JsValue
  logs : List FoodLogRow
  loading : Bool
  analysisResult : Option JsValue

/-- Result of one run of the upload flow: the new React state, the new store,
whether the advisory client (`analyzeFoodImage`) was invoked, and whether an
`alert` was shown. -/
structure FlowResult where
  st : AppState
  db : Store
  advisoryCalled : Bool
  alertShown : Bool

/-- The profile guard of `handleImageUpload` (App.tsx line 80):
`!profile.age || !profile.condition`. -/
def uploadGuardFails (profile : JsValue) : Bool :=
  !truthy (jsGetD profile "age") || !truthy (jsGetD profile "condition")

/-- The body of the POST to `/api/logs` (App.tsx lines 100-105), evaluated in
source order: the property accesses on `result` throw if `result` is `null`,
and `result.analysis + "\n\n팁: " + result.tips` concatenates via JavaScript
`ToString`.  `JSON.stringify` then drops `undefined`-valued properties. -/
def buildLogBody (result : JsValue) (base64 : String) : Except Unit JsValue :=
  match getField result "foodName", getField result "analysis",
        getField result "tips", getField result "isSafe" with
  | .ok foodName, .ok analysis, .ok tips, .ok isSafe =>
    .ok (stringifyBody
      [("image_url", .str base64),
       ("food_name", foodName),
       ("analysis", .str (jsToString analysis ++ "\n\n팁: " ++ jsToString tips)),
       ("is_safe", isSafe)])
  | _, _, _, _ => .error ()

/-- The part of `handleImageUpload` that runs once the image has been read
(App.tsx lines 90-113): call `analyzeFoodImage`; on success store the result,
POST the log body (the client never checks the HTTP status, so a 500 from an
unbindable column is silent) and refetch the logs; on any thrown error show
the alert; in all cases clear the loading flag. -/
def uploadComplete (parse : String → Except Unit JsValue)
    (st : AppState) (db : Store) (outcome : ProviderOutcome)
    (base64 : String) : FlowResult :=
  match analyzeFoodImage parse base64 (jsGetD st.profile "age")
      (jsGetD st.profile "condition") outcome with
  | .error _ => ⟨{ st with loading := false }, db, true, true⟩
  | .ok result =>
    let st1 := { st with analysisResult := some result }
    match buildLogBody result base64 with
    | .error _ => ⟨{ st1 with loading := false }, db, true, true⟩
    | .ok body =>
      let db1 := match appendLog body db with
        | .ok p => p.2
        | .error _ => db
      ⟨{ st1 with logs := (listRecentLogs db1).1, loading := false }, db1, true, false⟩

/-- App.tsx `handleImageUpload` (lines 76-116) as one synchronous run: return
if no file was chosen; alert and redirect to the profile tab when age or
condition is not set; otherwise set the loading state and run the analysis
to completion. -/
def handleImageUpload (parse : String → Except Unit JsValue)
    (st : AppState) (db : Store) (file : Bool) (outcome : ProviderOutcome)
    (base64 : String) : FlowResult :=
  if !file then ⟨st, db, false, false⟩
  else if uploadGuardFails st.profile then
    ⟨{ st with activeTab := .profile }, db, false, true⟩
  else
    uploadComplete parse { st with loading := true, analysisResult := none }
      db outcome base64

/-- The reactive effect of App.tsx lines 39-43: `fetchRecommendation` runs —
and with it the only call to `getDailyRecommendation`, on the five most
recent logs — exactly when `profile.age && logs.length > 0`. -/
def recommendationEffect (parse : String → Except Unit JsValue)
    (profile : JsValue) (logs : List FoodLogRow)
    (outcome : ProviderOutcome) : Option (Except Unit JsValue) :=
  if truthy (jsGetD profile "age") && decide (0 < logs.length) then
    some (getDailyRecommendation parse (logs.take 5) (jsGetD profile "age")
      (jsGetD profile "condition") outcome)
  else
    none

/-- The full interaction state for the event machine: React state, the store,
whether the native file chooser is open, and the base64 payload of an
analysis that has started but not yet completed. -/
structure UiState where
  app : AppState
  db : Store
  pickerOpen : Bool
  inFlight : Option String

/-- Whether the hidden file input is mounted: it lives inside `renderHome`,
which renders exactly when neither `loading` nor an `analysisResult` forces
the analysis view and the active tab is Home (App.tsx lines 333, 341,
146-153).  When it is unmounted, `fileInputRef.current` is `null` and the
camera buttons' `fileInputRef.current?.click()` is a no-op. -/
def fileInputMounted (st : AppState) : Bool :=
  !(st.loading || st.analysisResult.isSome) && st.activeTab == Tab.home

/-- User-visible events of the App component. -/
inductive Event where
  | cameraClick
  | fileSelected (file : Bool) (base64 : String)
  | analysisDone (outcome : ProviderOutcome)
  | navTab (t : Tab)
  | ackResult
  | profileChanged (p : JsValue)
  | logsFetched

/-- One event step of the App component.  `cameraClick` opens the file
chooser only when the hidden input is mounted; `fileSelected` can only fire
from an open chooser and runs `handleImageUpload` up to the point where the
analysis is awaited (App.tsx lines 76-87: the guard, then `setLoading(true)`
and `setAnalysisResult(null)`); `analysisDone` resolves a pending analysis
with `uploadComplete`.  The remaining events are the tab buttons, the
analysis-view Home button (clears the result), and the profile/logs state
setters. -/
def stepUi (parse : String → Except Unit JsValue) (s : UiState) : Event → UiState
  | .cameraClick =>
      if fileInputMounted s.app && !s.pickerOpen then { s with pickerOpen := true } else s
  | .fileSelected file b64 =>
      if !s.pickerOpen then s
      else if !file then { s with pickerOpen := false }
      else if uploadGuardFails s.app.profile then
        { s with pickerOpen := false, app := { s.app with activeTab := .profile } }
      else
        { s with
            pickerOpen := false,
            app := { s.app with loading := true, analysisResult := none },
            inFlight := some b64 }
  | .analysisDone outcome =>
      match s.inFlight with
      | none => s
      | some b64 =>
        let r := uploadComplete parse s.app s.db outcome b64
        { app := r.st, db := r.db, pickerOpen := s.pickerOpen, inFlight := none }
  | .navTab t => { s with app := { s.app with activeTab := t } }
  | .ackResult =>
      { s with app := { s.app with analysisResult := none, activeTab := .home } }
  | .profileChanged p => { s with app := { s.app with profile := p } }
  | .logsFetched => { s with app := { s.app with logs := (listRecentLogs s.db).1 } }

/-- The initial mounted component over a given store: Home tab, empty profile
object, no logs, not loading, no result, chooser closed, nothing pending. -/
def initUi (db : Store) : UiState :=
  { app := { activeTab := .home, profile := .obj [], logs := [],
             loading := false, analysisResult := none }
    db := db
    pickerOpen := false
    inFlight := none }

/-- States reachable by the event machine from some initial store. -/
inductive ReachableUi (parse : String → Except Unit JsValue) : UiState → Prop where
  | init (db : Store) : ReachableUi parse (initUi db)
  | step (s : UiState) (e : Event) (h : ReachableUi parse s) :
      ReachableUi parse (stepUi parse s e)

/-- Test parse functions for concrete runs: a finite table of response texts
and their parse results, everything else a `SyntaxError`; the fallback text
`"{}"` parses to the empty object as real `JSON.parse` does. -/
def parseFix (table : List (String × JsValue)) (s : String) : Except Unit JsValue :=
  if s = jsonEmptyText then .ok (.obj [])
  else
    match table.lookup s with
    | some v => .ok v
    | none => .error ()

/-- A profile object with both fields set, as fetched after a save. -/
def profileSet : JsValue := .obj [("age", .num 70), ("condition", .str "당뇨")]

/-- The store of a fresh database file. -/
def dbEmpty : Store := ⟨none, [], 1, 0⟩

/-- A React state on the Home tab with a complete profile. -/
def stHome : AppState := ⟨.home, profileSet, [], false, none⟩

/-- A provider response text (its content is irrelevant: `parseFix` tables
assign it a parse result). -/
def respText : String := "resp"

/-- Parse table for the counterexample run: the response parses to an object
with `foodName`, `analysis` and `tips` but no `isSafe`. -/
def tableMissingIsSafe : List (String × JsValue) :=
  [(respText, .obj [("foodName", .str "김밥"), ("analysis", .str "맛있어요"),
                    ("tips", .str "조금만 드세요")])]

/-- Parse table for the canned well-formed response of the spec. -/
def tableCanned : List (String × JsValue) :=
  [(respText, .obj [("foodName", .str "백미밥"), ("isSafe", .bool true),
                    ("analysis", .str "좋아요"), ("tips", .str "천천히 드세요")])]

/-- The loading state reached by: set the profile, click the camera, choose a
file. -/
def sLoadingW : UiState :=
  stepUi (parseFix []) (stepUi (parseFix [])
    (stepUi (parseFix []) (initUi dbEmpty) (.profileChanged profileSet))
    .cameraClick) (.fileSelected true "img")

/-- The request body `JSON.stringify({age, condition})` of a profile save
with a numeric age and a condition label. -/
def mkProfileBody (a : Int) (c : String) : JsValue :=
  .obj [("age", .num a), ("condition", .str c)]

/-- Run a sequence of POST `/api/profile` calls against the store (a handler
that throws leaves the store unchanged and answers 500). -/
def applyProfileSaves (calls : List (Int × String)) (db : Store) : Store :=
  calls.foldl
    (fun d ac =>
      match saveProfile (mkProfileBody ac.1 ac.2) d with
      | .ok p => p.2
      | .error _ => d)
    db

/-- A store whose profile row is set. -/
def dbWithProfile : Store := ⟨some ⟨.int 70, .text "당뇨"⟩, [], 1, 0⟩

/-- A freshly mounted React state: Home tab, empty profile object. -/
def stFresh : AppState := ⟨.home, .obj [], [], false, none⟩

theorem uploadComplete_loading (parse : String → Except Unit JsValue)
    (st : AppState) (db : Store) (outcome : ProviderOutcome) (b64 : String) :
    (uploadComplete parse st db outcome b64).st.loading = false := by
  unfold uploadComplete
  split
  · rfl
  · split <;> rfl

/-- C3: for every store, GET `/api/logs` returns at most 50 rows, sorted
newest-first by `created_at`, and leaves the store untouched. -/
theorem listRecentLogs_capped_sorted_pure (db : Store) :
    (listRecentLogs db).1.length ≤ 50 ∧
    List.Sorted newestFirst (listRecentLogs db).1 ∧
    (listRecentLogs db).2 = db := by
  refine ⟨?_, ?_, rfl⟩
  · exact List.length_take_le 50 _
  · exact List.Pairwise.sublist (List.take_sublist 50 _)
      (List.sorted_insertionSort newestFirst db.food_logs)

/-- C8: the `responseSchema` objects attached to the two provider requests
are exactly the contracts the specification describes: four required fields
`foodName`/`isSafe`/`analysis`/`tips` for meal analysis, the single required
field `recommendation` for the daily recommendation. -/
theorem response_schemas_match_spec :
    analyzeFoodImageSchema = specMealAnalysisSchema ∧
    dailyRecommendationSchema = specDailyRecommendationSchema :=
  ⟨rfl, rfl⟩

/-- C9: GET `/api/profile` is a pure read that answers the singleton row
when it exists and the empty object when no profile was ever saved. -/
theorem getProfile_singleton_or_empty (db : Store) :
    (getProfile db).2 = db ∧
    (db.user_profile = none → (getProfile db).1 = JsValue.obj []) ∧
    ∀ p, db.user_profile = some p → (getProfile db).1 = profileJson p := by
  refine ⟨rfl, ?_, ?_⟩
  · intro h
    simp [getProfile, h]
  · intro p h
    simp [getProfile, h]

theorem getProfile_singleton_or_empty_witness :
    (getProfile dbEmpty).1 = JsValue.obj [] ∧
    (getProfile dbWithProfile).1 = profileJson ⟨.int 70, .text "당뇨"⟩ :=
  ⟨(getProfile_singleton_or_empty dbEmpty).2.1 rfl,
   (getProfile_singleton_or_empty dbWithProfile).2.2 ⟨.int 70, .text "당뇨"⟩ rfl⟩

/-- C6: the reactive effect fires `getDailyRecommendation` never when the
log list is empty, and in general exactly when the profile's `age` is truthy
and at least one log exists. -/
theorem recommendation_requires_age_and_logs
    (parse : String → Except Unit JsValue) (profile : JsValue)
    (logs : List FoodLogRow) (outcome : ProviderOutcome) :
    recommendationEffect parse profile [] outcome = none ∧
    (recommendationEffect parse profile logs outcome ≠ none ↔
      truthy (jsGetD profile "age") = true ∧ logs ≠ []) := by
  constructor
  · simp [recommendationEffect]
  · unfold recommendationEffect
    split
    · rename_i hc
      simp only [Bool.and_eq_true, decide_eq_true_eq] at hc
      simp [hc.1, List.length_pos.mp hc.2]
    · rename_i hc
      simp only [Bool.and_eq_true, decide_eq_true_eq, not_and] at hc
      constructor
      · intro h
        exact absurd rfl h
      · intro h
        rcases Bool.eq_false_or_eq_true (truthy (jsGetD profile "age")) with ht | ht
        · exact absurd (List.length_pos.mpr h.2) (hc ht)
        · rw [ht] at h
          exact absurd h.1 (by simp)

/-- C10: with an empty or absent provider `text`, both client functions
return the parse of the literal `"{}"` — the empty object — instead of
raising, and a successfully parsed value is returned verbatim, with no
check of the schema's required fields. -/
theorem parse_fallback_empty_object_no_field_check
    (parse : String → Except Unit JsValue)
    (hp : parse jsonEmptyText = .ok (.obj [])) :
    (∀ (b64 : String) (age cond : JsValue) (logs : List FoodLogRow),
      analyzeFoodImage parse b64 age cond (.success none) = .ok (.obj []) ∧
      analyzeFoodImage parse b64 age cond (.success (some "")) = .ok (.obj []) ∧
      getDailyRecommendation parse logs age cond (.success none) = .ok (.obj []) ∧
      getDailyRecommendation parse logs age cond (.success (some "")) = .ok (.obj [])) ∧
    (∀ (s : String) (j : JsValue) (b64 : String) (age cond : JsValue)
        (logs : List FoodLogRow), s ≠ "" → parse s = .ok j →
      analyzeFoodImage parse b64 age cond (.success (some s)) = .ok j ∧
      getDailyRecommendation parse logs age cond (.success (some s)) = .ok j) := by
  constructor
  · intro b64 age cond logs
    simp [analyzeFoodImage, getDailyRecommendation, responseTextOrEmpty, hp]
  · intro s j b64 age cond logs hs hj
    simp [analyzeFoodImage, getDailyRecommendation, responseTextOrEmpty, hs, hj]

theorem parse_fallback_empty_object_no_field_check_witness :
    analyzeFoodImage (parseFix []) "img" (.num 70) (.str "당뇨") (.success none) =
      .ok (.obj []) ∧
    analyzeFoodImage (parseFix []) "img" (.num 70) (.str "당뇨") (.success (some "")) =
      .ok (.obj []) ∧
    getDailyRecommendation (parseFix []) [] (.num 70) (.str "당뇨") (.success none) =
      .ok (.obj []) ∧
    getDailyRecommendation (parseFix []) [] (.num 70) (.str "당뇨") (.success (some "")) =
      .ok (.obj []) :=
  (parse_fallback_empty_object_no_field_check (parseFix []) rfl).1
    "img" (.num 70) (.str "당뇨") []

/-- C2: with a well-formed canned response whose `foodName` is "백미밥" and
`isSafe` is `true`, the upload flow appends exactly one log row with
`food_name = "백미밥"` and `is_safe` stored as the integer 1, showing no
error; and at the storage boundary `POST /api/logs` coerces any truthy/falsy
`is_safe` value to the integer 1/0. -/
theorem canned_response_persists_one_log
    (parse : String → Except Unit JsValue) (st : AppState) (db : Store)
    (b64 s a t : String)
    (hguard : uploadGuardFails st.profile = false) (hs : s ≠ "")
    (hparse : parse s = .ok (.obj
      [("foodName", .str "백미밥"), ("isSafe", .bool true),
       ("analysis", .str a), ("tips", .str t)])) :
    (handleImageUpload parse st db true (.success (some s)) b64).db.food_logs =
      db.food_logs ++ [⟨db.nextId, .text b64, .text "백미밥",
        .text (a ++ "\n\n팁: " ++ t), .int 1, db.now⟩] ∧
    (handleImageUpload parse st db true (.success (some s)) b64).alertShown = false ∧
    ∀ (v : JsValue) (db₀ : Store) (u fn an : String),
      appendLog (.obj [("image_url", .str u), ("food_name", .str fn),
        ("analysis", .str an), ("is_safe", v)]) db₀ =
      .ok (.obj [("success", .bool true)],
        { db₀ with
            food_logs := db₀.food_logs ++ [⟨db₀.nextId, .text u, .text fn,
              .text an, .int (if truthy v then 1 else 0), db₀.now⟩],
            nextId := db₀.nextId + 1 }) := by
  refine ⟨?_, ?_, ?_⟩
  · simp [handleImageUpload, hguard, uploadComplete, analyzeFoodImage,
      responseTextOrEmpty, hs, hparse, buildLogBody, getField, stringifyBody,
      isUndefined, jsToString, appendLog, bindValue, truthy, List.lookup]
  · simp [handleImageUpload, hguard, uploadComplete, analyzeFoodImage,
      responseTextOrEmpty, hs, hparse, buildLogBody, getField, stringifyBody,
      isUndefined, jsToString, appendLog, bindValue, truthy, List.lookup]
  · intro v db₀ u fn an
    simp [appendLog, getField, bindValue, List.lookup]

theorem canned_response_persists_one_log_witness :
    (handleImageUpload (parseFix tableCanned) stHome dbEmpty true
      (.success (some respText)) "img").db.food_logs =
      dbEmpty.food_logs ++ [⟨dbEmpty.nextId, .text "img", .text "백미밥",
        .text ("좋아요" ++ "\n\n팁: " ++ "천천히 드세요"), .int 1, dbEmpty.now⟩] ∧
    (handleImageUpload (parseFix tableCanned) stHome dbEmpty true
      (.success (some respText)) "img").alertShown = false :=
  ⟨(canned_response_persists_one_log (parseFix tableCanned) stHome dbEmpty
      "img" respText "좋아요" "천천히 드세요" (by decide) (by decide) rfl).1,
   (canned_response_persists_one_log (parseFix tableCanned) stHome dbEmpty
      "img" respText "좋아요" "천천히 드세요" (by decide) (by decide) rfl).2.1⟩

/-- C1 (counterexample): a provider response that parses to an object with
`foodName`, `analysis` and `tips` but no `isSafe` field does not make the
flow fail: no alert is shown and a log row is persisted, with `is_safe`
stored as 0. -/
theorem missing_isSafe_persists_without_alert :
    (handleImageUpload (parseFix tableMissingIsSafe) stHome dbEmpty true
      (.success (some respText)) "img").alertShown = false ∧
    (handleImageUpload (parseFix tableMissingIsSafe) stHome dbEmpty true
      (.success (some respText)) "img").db.food_logs =
      [⟨1, .text "img", .text "김밥", .text "맛있어요\n\n팁: 조금만 드세요",
        .int 0, 0⟩] := by
  constructor
  · decide
  · decide

/-- C1 (amended): when the provider response cannot be parsed as JSON the
flow shows the error alert and persists nothing; but a response that parses
to an object merely missing required fields is not rejected — with the other
three fields present as strings and `isSafe` absent, the flow persists one
log row with `is_safe` stored as 0 and shows no alert. -/
theorem upload_parse_failure_aborts_but_missing_fields_persist
    (parse : String → Except Unit JsValue) (st : AppState) (db : Store)
    (b64 s : String)
    (hguard : uploadGuardFails st.profile = false) (hs : s ≠ "") :
    (parse s = .error () →
      (handleImageUpload parse st db true (.success (some s)) b64).alertShown = true ∧
      (handleImageUpload parse st db true (.success (some s)) b64).db = db) ∧
    (∀ (fn an tp : String) (fields : List (String × JsValue)),
      parse s = .ok (.obj fields) →
      fields.lookup "foodName" = some (.str fn) →
      fields.lookup "analysis" = some (.str an) →
      fields.lookup "tips" = some (.str tp) →
      fields.lookup "isSafe" = none →
      (handleImageUpload parse st db true (.success (some s)) b64).alertShown = false ∧
      (handleImageUpload parse st db true (.success (some s)) b64).db.food_logs =
        db.food_logs ++ [⟨db.nextId, .text b64, .text fn,
          .text (an ++ "\n\n팁: " ++ tp), .int 0, db.now⟩]) := by
  constructor
  · intro h
    constructor <;>
      simp [handleImageUpload, hguard, uploadComplete, analyzeFoodImage,
        responseTextOrEmpty, hs, h]
  · intro fn an tp fields hparse h1 h2 h3 h4
    constructor <;>
      simp [handleImageUpload, hguard, uploadComplete, analyzeFoodImage,
        responseTextOrEmpty, hs, hparse, buildLogBody, getField, h1, h2, h3, h4,
        stringifyBody, isUndefined, jsToString, appendLog, bindValue, truthy,
        List.lookup]

theorem upload_parse_failure_aborts_but_missing_fields_persist_witness :
    ((handleImageUpload (parseFix []) stHome dbEmpty true
        (.success (some respText)) "img").alertShown = true ∧
      (handleImageUpload (parseFix []) stHome dbEmpty true
        (.success (some respText)) "img").db = dbEmpty) ∧
    ((handleImageUpload (parseFix tableMissingIsSafe) stHome dbEmpty true
        (.success (some respText)) "img").alertShown = false ∧
      (handleImageUpload (parseFix tableMissingIsSafe) stHome dbEmpty true
        (.success (some respText)) "img").db.food_logs =
        dbEmpty.food_logs ++ [⟨dbEmpty.nextId, .text "img", .text "김밥",
          .text ("맛있어요" ++ "\n\n팁: " ++ "조금만 드세요"), .int 0, dbEmpty.now⟩]) :=
  ⟨(upload_parse_failure_aborts_but_missing_fields_persist (parseFix []) stHome
      dbEmpty "img" respText (by decide) (by decide)).1 rfl,
   (upload_parse_failure_aborts_but_missing_fields_persist
      (parseFix tableMissingIsSafe) stHome dbEmpty "img" respText
      (by decide) (by decide)).2
    "김밥" "맛있어요" "조금만 드세요"
    [("foodName", .str "김밥"), ("analysis", .str "맛있어요"),
     ("tips", .str "조금만 드세요")] rfl rfl rfl rfl rfl⟩

/-- C5: when the fetched profile object lacks `age` or `condition`, choosing
an image redirects to the profile tab, never calls `analyzeFoodImage`, and
leaves the store untouched. -/
theorem capture_without_profile_redirects
    (parse : String → Except Unit JsValue) (st : AppState) (db : Store)
    (outcome : ProviderOutcome) (b64 : String)
    (h : jsGetD st.profile "age" = JsValue.undefined ∨
         jsGetD st.profile "condition" = JsValue.undefined) :
    (handleImageUpload parse st db true outcome b64).st.activeTab = Tab.profile ∧
    (handleImageUpload parse st db true outcome b64).advisoryCalled = false ∧
    (handleImageUpload parse st db true outcome b64).db = db := by
  have hg : uploadGuardFails st.profile = true := by
    rcases h with h | h <;> simp [uploadGuardFails, h, truthy]
  simp [handleImageUpload, hg]

theorem capture_without_profile_redirects_witness :
    (handleImageUpload (parseFix []) stFresh dbEmpty true (.success none) "img").st.activeTab
      = Tab.profile ∧
    (handleImageUpload (parseFix []) stFresh dbEmpty true (.success none) "img").advisoryCalled
      = false ∧
    (handleImageUpload (parseFix []) stFresh dbEmpty true (.success none) "img").db
      = dbEmpty :=
  capture_without_profile_redirects (parseFix []) stFresh dbEmpty
    (.success none) "img" (Or.inl rfl)

/-- C4: POST `/api/profile` is an upsert on the singleton row: after any
sequence of saves the store holds exactly one profile row carrying the last
call's arguments, and repeating a save with identical input leaves the store
unchanged. -/
theorem saveProfile_upsert_singleton
    (calls : List (Int × String)) (db : Store) (a : Int) (c : String)
    (hlast : calls.getLast? = some (a, c)) :
    (applyProfileSaves calls db).user_profile = some ⟨.int a, .text c⟩ ∧
    ∀ (x : Int) (y : String) (db₀ : Store),
      applyProfileSaves [(x, y), (x, y)] db₀ = applyProfileSaves [(x, y)] db₀ := by
  constructor
  · induction calls generalizing db with
    | nil => simp at hlast
    | cons hd tl ih =>
      cases tl with
      | nil =>
        simp only [List.getLast?_singleton, Option.some_inj] at hlast
        subst hlast
        simp [applyProfileSaves, saveProfile, mkProfileBody, getField, bindValue,
          List.lookup]
      | cons hd2 tl2 =>
        rw [List.getLast?_cons_cons] at hlast
        simpa [applyProfileSaves] using ih (applyProfileSaves [hd] db) hlast
  · intro x y db₀
    simp [applyProfileSaves, saveProfile, mkProfileBody, getField, bindValue,
      List.lookup]

theorem saveProfile_upsert_singleton_witness :
    (applyProfileSaves [(60, "고혈압"), (70, "당뇨")] dbEmpty).user_profile =
      some ⟨.int 70, .text "당뇨"⟩ :=
  (saveProfile_upsert_singleton [(60, "고혈압"), (70, "당뇨")] dbEmpty 70 "당뇨"
    (by decide)).1

theorem reachable_picker_loading (parse : String → Except Unit JsValue)
    (s : UiState) (h : ReachableUi parse s) :
    (s.pickerOpen = true → s.app.loading = false) ∧
    s.inFlight.isSome = s.app.loading := by
  induction h with
  | init db => exact ⟨fun _ => rfl, rfl⟩
  | step s e h ih =>
    cases e with
    | cameraClick =>
      by_cases hc : (fileInputMounted s.app && !s.pickerOpen) = true
      · have hm : s.app.loading = false := by
          have := (Bool.and_eq_true _ _).mp hc |>.1
          simp only [fileInputMounted, Bool.and_eq_true, Bool.not_eq_true',
            Bool.or_eq_false_iff] at this
          exact this.1.1
        simp only [stepUi, if_pos hc]
        exact ⟨(fun _ => hm), ih.2⟩
      · simp only [stepUi, if_neg hc]
        exact ih
    | fileSelected file b64 =>
      by_cases h1 : (!s.pickerOpen) = true
      · simp only [stepUi, if_pos h1]
        exact ih
      · by_cases h2 : (!file) = true
        · simp only [stepUi, if_neg h1, if_pos h2]
          exact ⟨(fun hpp => nomatch hpp), ih.2⟩
        · by_cases h3 : uploadGuardFails s.app.profile = true
          · simp only [stepUi, if_neg h1, if_neg h2, if_pos h3]
            exact ⟨(fun hpp => nomatch hpp), ih.2⟩
          · simp only [stepUi, if_neg h1, if_neg h2, if_neg h3]
            exact ⟨(fun hpp => nomatch hpp), rfl⟩
    | analysisDone outcome =>
      cases hf : s.inFlight with
      | none =>
        simp only [stepUi, hf]
        exact ⟨ih.1, hf ▸ ih.2⟩
      | some b64 =>
        simp only [stepUi, hf]
        exact ⟨fun _ => uploadComplete_loading parse s.app s.db outcome b64,
          (uploadComplete_loading parse s.app s.db outcome b64).symm⟩
    | navTab t => exact ih
    | ackResult => exact ih
    | profileChanged p => exact ih
    | logsFetched => exact ih

/-- C7: while an analysis is pending (`loading` is set), a second capture
attempt is ignored: the camera buttons' click is a no-op (the hidden file
input is unmounted, so the ref is null) and no file-selection event can start
another upload (the chooser cannot be open), so a second analysis is never
started concurrently. -/
theorem no_overlapping_capture_while_loading
    (parse : String → Except Unit JsValue) (s : UiState)
    (h : ReachableUi parse s) (hl : s.app.loading = true) :
    stepUi parse s Event.cameraClick = s ∧
    ∀ (file : Bool) (b64 : String), stepUi parse s (Event.fileSelected file b64) = s := by
  have hinv := reachable_picker_loading parse s h
  have hpick : s.pickerOpen = false := by
    cases hp : s.pickerOpen
    · rfl
    · have := hinv.1 hp
      rw [this] at hl
      exact absurd hl (by simp)
  constructor
  · simp [stepUi, fileInputMounted, hl]
  · intro file b64
    simp [stepUi, hpick]

theorem no_overlapping_capture_while_loading_witness :
    stepUi (parseFix []) sLoadingW Event.cameraClick = sLoadingW ∧
    ∀ (file : Bool) (b64 : String),
      stepUi (parseFix []) sLoadingW (Event.fileSelected file b64) = sLoadingW :=
  no_overlapping_capture_while_loading (parseFix []) sLoadingW
    (ReachableUi.step _ _ (ReachableUi.step _ _ (ReachableUi.step _ _
      (ReachableUi.init dbEmpty))))
    (by decide)

end MealApp
